import Mathlib

/-!
Verification of the wlan-swap declarative loader, the FlowgraphController
block, and the hot-swap supervisor of the FutureSDR example application.

The development shallowly embeds the Rust sources
`src/examples/wlan-swap/src/loader/toml_loader.rs`,
`src/examples/wlan-swap/src/loader/block_registry.rs`,
`src/examples/wlan-swap/src/loader/flowgraph_controller.rs` and
`src/examples/wlan-swap/src/bin/radio_frontend.rs` as executable Lean
functions, and proves properties of them.
-/

set_option maxHeartbeats 1000000

/-- Floating-point payloads are carried opaquely by their textual rendering.
No arithmetic on them is modelled; the embedded code only matches on the
variant tag and formats values into strings. -/
structure FloatRepr where
  render : String
deriving DecidableEq

/-- The subset of `toml::Value` variants the embedded factories inspect. -/
inductive TomlValue where
  | integer (i : Int)
  | float (f : FloatRepr)
  | str (s : String)
  | boolean (b : Bool)
deriving DecidableEq

/-- `toml::Value::as_integer`: only the Integer variant yields a value. -/
def TomlValue.as_integer : TomlValue → Option Int
  | .integer i => some i
  | _ => none

/-- `toml::Value::as_float`: only the Float variant yields a value. -/
def TomlValue.as_float : TomlValue → Option FloatRepr
  | .float f => some f
  | _ => none

/-- `toml::Value::as_str`: only the String variant yields a value. -/
def TomlValue.as_str : TomlValue → Option String
  | .str s => some s
  | _ => none

/-- `toml::Value::as_bool`: only the Boolean variant yields a value. -/
def TomlValue.as_bool : TomlValue → Option Bool
  | .boolean b => some b
  | _ => none

/-- `ParameterConfig` from toml_loader.rs. -/
structure ParameterConfig where
  name : String
  param_type : String
  value : TomlValue
deriving DecidableEq

/-- `BlockConfig` from toml_loader.rs. Serde defaults are the Lean field
defaults. -/
structure BlockConfig where
  name : String
  block_type : String
  dtype : Option String := none
  output_type : Option String := none
  input1_type : Option String := none
  input2_type : Option String := none
  parameters : List ParameterConfig := []
  optional : Bool := false
deriving DecidableEq

/-- `ConnectionConfig` from toml_loader.rs. The Rust field `from` is a Lean
keyword, hence the underscore. -/
structure ConnectionConfig where
  from_ : String
  from_port : Option String := none
  to_ : String
  to_port : Option String := none
  conditional : Option String := none
deriving DecidableEq

/-- `MessageConnectionConfig` from toml_loader.rs. `from_port` is required in
the Rust struct, `to_port` is serde-defaulted. -/
structure MessageConnectionConfig where
  from_ : String
  from_port : String
  to_ : String
  to_port : Option String := none
  conditional : Option String := none
deriving DecidableEq

/-- `FlowgraphConfig` from toml_loader.rs. The `runtime` and `cli` sections are
not consulted by `FlowgraphLoader::build` and are omitted. -/
structure FlowgraphConfig where
  blocks : List BlockConfig
  connections : List ConnectionConfig := []
  message_connections : List MessageConnectionConfig := []
deriving DecidableEq

/-- The condition map of the loader (a `HashMap<String, bool>`), represented
as an association list where the head entry for a key shadows older ones,
matching insert-overwrites semantics. -/
abbrev CondMap := List (String × Bool)

/-- `str::strip_prefix` with the single character `!`, as used by
`FlowgraphLoader::eval_condition`. -/
def stripBang (e : String) : Option String :=
  match e.data with
  | '!' :: rest => some (String.mk rest)
  | _ => none

/-- `FlowgraphLoader::eval_condition` (toml_loader.rs lines 199-211):
an absent expression is true; an expression starting with `!` is the negated
lookup of the remainder; otherwise the lookup of the expression, with absent
map entries read as false. -/
def eval_condition (conditions : CondMap) : Option String → Bool
  | none => true
  | some e =>
    match stripBang e with
    | some name => !((conditions.lookup name).getD false)
    | none => (conditions.lookup e).getD false

/-- A block record inside the flowgraph; the kernel is identified by the
registry type key that created it. -/
structure BlockInstance where
  id : Nat
  kind : String
deriving DecidableEq

/-- A recorded stream connection. -/
structure StreamEdge where
  src : Nat
  src_port : String
  dst : Nat
  dst_port : String
deriving DecidableEq

/-- A recorded message connection. -/
structure MessageEdge where
  src : Nat
  src_port : String
  dst : Nat
  dst_port : String
deriving DecidableEq

/-- The flowgraph under construction. -/
structure Flowgraph where
  blocks : List BlockInstance := []
  nextId : Nat := 0
  stream_edges : List StreamEdge := []
  message_edges : List MessageEdge := []
deriving DecidableEq

/-- Modelled from the spec: `Flowgraph::add_block` lives in the futuresdr
runtime crate, which is not under `src/`. The spec states that BlockIds are
dense from 0, so a fresh flowgraph hands out ids 0, 1, 2, ... in creation
order. -/
def Flowgraph.add_block (fg : Flowgraph) (kind : String) : Nat × Flowgraph :=
  (fg.nextId,
   { fg with
     blocks := fg.blocks ++ [⟨fg.nextId, kind⟩],
     nextId := fg.nextId + 1 })

/-- Modelled from the spec: `Flowgraph::connect_dyn` lives in the futuresdr
runtime crate, which is not under `src/`. Per the spec the loader resolves
endpoints and records the stream connection; element-type and port validation
happens at freeze (`start`), outside the loader. -/
def Flowgraph.connect_dyn (fg : Flowgraph) (src : Nat) (src_port : String)
    (dst : Nat) (dst_port : String) : Except String Flowgraph :=
  .ok { fg with stream_edges := fg.stream_edges ++ [⟨src, src_port, dst, dst_port⟩] }

/-- Modelled from the spec: `Flowgraph::connect_message` lives in the futuresdr
runtime crate, which is not under `src/`. The loader records the message
connection; endpoint validation happens at freeze. -/
def Flowgraph.connect_message (fg : Flowgraph) (src : Nat) (src_port : String)
    (dst : Nat) (dst_port : String) : Except String Flowgraph :=
  .ok { fg with message_edges := fg.message_edges ++ [⟨src, src_port, dst, dst_port⟩] }

/-- The type keys registered by `BlockRegistry::new` (block_registry.rs lines
28-76) for a non-wasm build. -/
def registeredTypes : List String :=
  ["zigbee::Mac", "zigbee::Modulator", "zigbee::IqDelay",
   "zigbee::ClockRecoveryMm", "zigbee::Decoder",
   "Apply", "Combine", "Delay", "Fft", "Throttle",
   "WebsocketPmtSink", "FileSource", "BlobToUdp", "NullSource", "NullSink",
   "wifi::Mac", "wifi::Encoder", "wifi::Mapper", "wifi::Prefix",
   "wifi::MovingAverage", "wifi::SyncShort", "wifi::SyncLong",
   "wifi::FrameEqualizer", "wifi::Decoder",
   "seify::Source", "seify::Sink",
   "FlowgraphController"]

/-- `params.iter().find(|p| p.name == name)` as used by the parameter
helpers. -/
def findParam (params : List ParameterConfig) (name : String) :
    Option ParameterConfig :=
  params.find? (fun p => p.name == name)

/-- `get_param_u32` (block_registry.rs lines 99-105). The Rust `v as u32`
cast wraps modulo two to the 32. -/
def get_param_u32 (params : List ParameterConfig) (name : String) :
    Except String Nat :=
  match (findParam params name).bind (fun p => p.value.as_integer) with
  | some v => .ok ((v % 4294967296).toNat)
  | none => .error ("Parameter \x27" ++ name ++ "\x27 not found or invalid")

/-- `get_param_f32` (block_registry.rs lines 107-113); the float payload is
opaque. -/
def get_param_f32 (params : List ParameterConfig) (name : String) :
    Except String FloatRepr :=
  match (findParam params name).bind (fun p => p.value.as_float) with
  | some v => .ok v
  | none => .error ("Parameter \x27" ++ name ++ "\x27 not found or invalid")

/-- `get_param_f64` (block_registry.rs lines 115-120). -/
def get_param_f64 (params : List ParameterConfig) (name : String) :
    Except String FloatRepr :=
  match (findParam params name).bind (fun p => p.value.as_float) with
  | some v => .ok v
  | none => .error ("Parameter \x27" ++ name ++ "\x27 not found or invalid")

/-- `get_param_string` (block_registry.rs lines 122-128). -/
def get_param_string (params : List ParameterConfig) (name : String) :
    Except String String :=
  match (findParam params name).bind (fun p => p.value.as_str) with
  | some v => .ok v
  | none => .error ("Parameter \x27" ++ name ++ "\x27 not found or invalid")

/-- Value of one hexadecimal digit. -/
def hexDigit (c : Char) : Option Nat :=
  if '0' ≤ c ∧ c ≤ '9' then some (c.toNat - '0'.toNat)
  else if 'a' ≤ c ∧ c ≤ 'f' then some (c.toNat - 'a'.toNat + 10)
  else if 'A' ≤ c ∧ c ≤ 'F' then some (c.toNat - 'A'.toNat + 10)
  else none

/-- Accumulate hexadecimal digits; none on a non-digit character. -/
def hexFold : List Char → Nat → Option Nat
  | [], acc => some acc
  | c :: rest, acc =>
    match hexDigit c with
    | some d => hexFold rest (acc * 16 + d)
    | none => none

/-- `u8::from_str_radix(part, 16)`: optional leading plus sign, at least one
digit, failure on a non-digit or on overflow past 255. -/
def u8_from_str_radix16 (s : String) : Option Nat :=
  let cs :=
    match s.data with
    | '+' :: rest => rest
    | cs => cs
  match cs with
  | [] => none
  | _ => (hexFold cs 0).filter (fun v => v < 256)

/-- `parse_mac_addr` (block_registry.rs lines 538-548): split on colons,
require exactly six parts, parse each part as a hexadecimal byte. -/
def parse_mac_addr (s : String) : Except String (List Nat) :=
  let parts := s.splitOn ":"
  if parts.length = 6 then
    match parts.mapM u8_from_str_radix16 with
    | some bytes => .ok bytes
    | none => .error "invalid digit found in string"
  else .error ("Invalid MAC address format: " ++ s)

/-- One optional MAC-address parameter of `WifiMacFactory`: an absent or
non-string value falls back to the default, a present string value must
parse. -/
def macAddrParam (params : List ParameterConfig) (name : String)
    (dflt : List Nat) : Except String (List Nat) :=
  match (findParam params name).bind (fun p => p.value.as_str) with
  | some s => parse_mac_addr s
  | none => .ok dflt

/-- The parameter-validation half of the per-type factory dispatch of
block_registry.rs. Every factory in the source validates its parameters and
then calls `fg.add_block` exactly once on the constructed kernel; the
validation logic is collected here, returning the kernel kind, and
`factory_create` below performs the single `add_block`. `zigbee::Modulator`
is a composite whose internals live outside `src/`; it is modelled as a
single added block, and no statement below depends on how many blocks the
composite holds. The seify device builder also lives outside `src/`; per the
spec, resource acquisition failures are start-time errors, so the factory
succeeds once its parameters are valid. -/
def factory_validate (bt : String) (config : BlockConfig) :
    Except String String :=
  match bt with
  | "zigbee::Mac" => .ok ("zigbee::Mac")
  | "zigbee::Modulator" => .ok ("zigbee::Modulator")
  | "zigbee::IqDelay" => .ok ("zigbee::IqDelay")
  | "zigbee::ClockRecoveryMm" =>
    match get_param_f32 config.parameters "omega" with
    | .error e => .error e
    | .ok _ =>
    match get_param_f32 config.parameters "gain_omega" with
    | .error e => .error e
    | .ok _ =>
    match get_param_f32 config.parameters "mu" with
    | .error e => .error e
    | .ok _ =>
    match get_param_f32 config.parameters "gain_mu" with
    | .error e => .error e
    | .ok _ =>
    match get_param_f32 config.parameters "omega_relative_limit" with
    | .error e => .error e
    | .ok _ => .ok ("zigbee::ClockRecoveryMm")
  | "zigbee::Decoder" =>
    match get_param_u32 config.parameters "threshold" with
    | .error e => .error e
    | .ok _ => .ok ("zigbee::Decoder")
  | "Apply" =>
    match get_param_string config.parameters "function" with
    | .error e => .error e
    | .ok closure_name =>
      match closure_name with
      | "phase_detector_iir" => .ok ("Apply")
      | "norm_sqr" => .ok ("Apply")
      | "dc_offset_removal" => .ok ("Apply")
      | _ => .error ("Unknown closure type for Apply block: " ++ closure_name)
  | "Combine" =>
    match (config.parameters.find?
        (fun p => p.name == "closure" || p.name == "function")).bind
        (fun p => p.value.as_str) with
    | none => .error "Combine block requires \x27closure\x27 or \x27function\x27 parameter"
    | some closure_name =>
      match closure_name with
      | "multiply_conj" => .ok ("Combine")
      | "mult_conjugate" => .ok ("Combine")
      | "divide" => .ok ("Combine")
      | "norm_divide" => .ok ("Combine")
      | _ => .error ("Unknown closure type for Combine block: " ++ closure_name)
  | "Delay" =>
    match get_param_u32 config.parameters "delay" with
    | .error e => .error e
    | .ok _ =>
      match config.dtype.getD "Complex32" with
      | "Complex32" => .ok ("Delay")
      | "f32" => .ok ("Delay")
      | "u8" => .ok ("Delay")
      | d => .error ("Unsupported dtype for Delay: " ++ d)
  | "Fft" =>
    match get_param_u32 config.parameters "size" with
    | .error e => .error e
    | .ok _ => .ok ("Fft")
  | "Throttle" =>
    match get_param_f64 config.parameters "rate" with
    | .error e => .error e
    | .ok _ =>
      match config.dtype.getD "Complex32" with
      | "Complex32" => .ok ("Throttle")
      | "f32" => .ok ("Throttle")
      | "u8" => .ok ("Throttle")
      | d => .error ("Unsupported dtype for Throttle: " ++ d)
  | "WebsocketPmtSink" =>
    match get_param_u32 config.parameters "port" with
    | .error e => .error e
    | .ok _ => .ok ("WebsocketPmtSink")
  | "FileSource" =>
    match (findParam config.parameters "path").bind (fun p => p.value.as_str) with
    | none => .error "FileSource requires \x27path\x27 parameter"
    | some _ =>
      match config.dtype.getD "Complex32" with
      | "Complex32" => .ok ("FileSource")
      | "f32" => .ok ("FileSource")
      | "u8" => .ok ("FileSource")
      | d => .error ("Unsupported dtype for FileSource: " ++ d)
  | "BlobToUdp" =>
    match (config.parameters.find?
        (fun p => p.name == "address" || p.name == "addr")).bind
        (fun p => p.value.as_str) with
    | none => .error "BlobToUdp requires \x27address\x27 or \x27addr\x27 parameter"
    | some _ => .ok ("BlobToUdp")
  | "NullSource" =>
    match config.dtype.getD "u8" with
    | "u8" => .ok ("NullSource")
    | "u32" => .ok ("NullSource")
    | "f32" => .ok ("NullSource")
    | "Complex32" => .ok ("NullSource")
    | d => .error ("Unsupported dtype for NullSource: " ++ d)
  | "NullSink" =>
    match config.dtype.getD "u8" with
    | "u8" => .ok ("NullSink")
    | "u32" => .ok ("NullSink")
    | "f32" => .ok ("NullSink")
    | "Complex32" => .ok ("NullSink")
    | d => .error ("Unsupported dtype for NullSink: " ++ d)
  | "wifi::Mac" =>
    match macAddrParam config.parameters "src_addr" [66, 66, 66, 66, 66, 66] with
    | .error e => .error e
    | .ok _ =>
    match macAddrParam config.parameters "dst_addr" [35, 35, 35, 35, 35, 35] with
    | .error e => .error e
    | .ok _ =>
    match macAddrParam config.parameters "bssid" [255, 255, 255, 255, 255, 255] with
    | .error e => .error e
    | .ok _ => .ok ("wifi::Mac")
  | "wifi::Encoder" => .ok ("wifi::Encoder")
  | "wifi::Mapper" => .ok ("wifi::Mapper")
  | "wifi::Prefix" =>
    match get_param_u32 config.parameters "pad_front" with
    | .error e => .error e
    | .ok _ =>
    match get_param_u32 config.parameters "pad_tail" with
    | .error e => .error e
    | .ok _ => .ok ("wifi::Prefix")
  | "wifi::MovingAverage" =>
    match get_param_u32 config.parameters "length" with
    | .error e => .error e
    | .ok _ => .ok ("wifi::MovingAverage")
  | "wifi::SyncShort" => .ok ("wifi::SyncShort")
  | "wifi::SyncLong" => .ok ("wifi::SyncLong")
  | "wifi::FrameEqualizer" => .ok ("wifi::FrameEqualizer")
  | "wifi::Decoder" => .ok ("wifi::Decoder")
  | "seify::Source" =>
    match get_param_f64 config.parameters "frequency" with
    | .error e => .error e
    | .ok _ =>
    match get_param_f64 config.parameters "sample_rate" with
    | .error e => .error e
    | .ok _ =>
    match get_param_f64 config.parameters "gain" with
    | .error e => .error e
    | .ok _ => .ok ("seify::Source")
  | "seify::Sink" =>
    match get_param_f64 config.parameters "frequency" with
    | .error e => .error e
    | .ok _ =>
    match get_param_f64 config.parameters "sample_rate" with
    | .error e => .error e
    | .ok _ =>
    match get_param_f64 config.parameters "gain" with
    | .error e => .error e
    | .ok _ => .ok ("seify::Sink")
  | "FlowgraphController" => .ok ("FlowgraphController")
  | other => .error ("No factory registered for block type: " ++ other)

/-- The per-type factory dispatch: validate the parameters, then append one
block to the flowgraph, returning its BlockId. `FlowgraphControllerFactory`
(block_registry.rs lines 366-375) takes this same path: it receives no
special BlockId. -/
def factory_create (bt : String) (fg : Flowgraph) (config : BlockConfig) :
    Except String (Nat × Flowgraph) :=
  match factory_validate bt config with
  | .error e => .error e
  | .ok kind => .ok (fg.add_block kind)

/-- `BlockRegistry::create_block` (block_registry.rs lines 84-89): look up the
factory for the type key, error when none is registered, otherwise run it. -/
def create_block (fg : Flowgraph) (config : BlockConfig) :
    Except String (Nat × Flowgraph) :=
  if registeredTypes.contains config.block_type then
    factory_create config.block_type fg config
  else
    .error ("No factory registered for block type: " ++ config.block_type)


/-- One block-creation event during `FlowgraphLoader::build`, recording the
configured name, the configured type key, and the BlockId the factory
returned. -/
structure CreateEvent where
  name : String
  block_type : String
  id : Nat
deriving DecidableEq

/-- The name-to-BlockId map of the loader (a `HashMap<String, BlockId>`),
represented as an association list where the head entry for a key shadows
older ones, matching insert-overwrites semantics. -/
abbrev BlockMap := List (String × Nat)

/-- The skip test of step 1 of `FlowgraphLoader::build` (toml_loader.rs line
217): `block_cfg.optional && !self.eval_condition(&Some(block_cfg.name))`. -/
def blockSkipped (conditions : CondMap) (b : BlockConfig) : Bool :=
  b.optional && !(eval_condition conditions (some b.name))

/-- The guard expression of a block entry: its own name when the entry is
marked optional, absent otherwise. -/
def blockGuard (b : BlockConfig) : Option String :=
  if b.optional then some b.name else none

/-- Step 1 of `FlowgraphLoader::build` (toml_loader.rs lines 215-223): walk
the configured blocks in order, skip guarded-out entries, create the others
through the registry and record `name -> id` in the block map. The third
result component is the list of creation events in order, added for
observability. -/
def create_blocks (conditions : CondMap) :
    List BlockConfig → BlockMap → Flowgraph → List CreateEvent →
    Except String (BlockMap × Flowgraph × List CreateEvent)
  | [], m, fg, log => .ok (m, fg, log)
  | b :: rest, m, fg, log =>
    if blockSkipped conditions b then
      create_blocks conditions rest m fg log
    else
      match create_block fg b with
      | .error e => .error e
      | .ok (id, fg2) =>
        create_blocks conditions rest ((b.name, id) :: m) fg2
          (log ++ [⟨b.name, b.block_type, id⟩])

/-- Step 2 of `FlowgraphLoader::build` (toml_loader.rs lines 226-240): for
each stream connection whose conditional holds, resolve both endpoint names
in the block map, default the source port to `output` and the destination
port to `input`, and call `connect_dyn`. -/
def connect_streams (conditions : CondMap) (m : BlockMap) :
    List ConnectionConfig → Flowgraph → Except String Flowgraph
  | [], fg => .ok fg
  | c :: rest, fg =>
    if !(eval_condition conditions c.conditional) then
      connect_streams conditions m rest fg
    else
      match m.lookup c.from_ with
      | none => .error ("Source block \x27" ++ c.from_ ++ "\x27 not found")
      | some from_id =>
        match m.lookup c.to_ with
        | none => .error ("Destination block \x27" ++ c.to_ ++ "\x27 not found")
        | some to_id =>
          match fg.connect_dyn from_id (c.from_port.getD "output")
              to_id (c.to_port.getD "input") with
          | .error e => .error e
          | .ok fg2 => connect_streams conditions m rest fg2

/-- Step 3 of `FlowgraphLoader::build` (toml_loader.rs lines 243-258): for
each message connection whose conditional holds, resolve both endpoint names,
default the destination port to the source port name, and call
`connect_message`. -/
def connect_messages (conditions : CondMap) (m : BlockMap) :
    List MessageConnectionConfig → Flowgraph → Except String Flowgraph
  | [], fg => .ok fg
  | c :: rest, fg =>
    if !(eval_condition conditions c.conditional) then
      connect_messages conditions m rest fg
    else
      match m.lookup c.from_ with
      | none => .error ("Source block \x27" ++ c.from_ ++ "\x27 not found")
      | some from_id =>
        match m.lookup c.to_ with
        | none => .error ("Destination block \x27" ++ c.to_ ++ "\x27 not found")
        | some to_id =>
          match fg.connect_message from_id c.from_port
              to_id (c.to_port.getD c.from_port) with
          | .error e => .error e
          | .ok fg2 => connect_messages conditions m rest fg2

/-- The `FlowgraphLoader` state: parsed configuration, the name-to-id map
(empty after `from_str`), and the preset condition map. The registry field
carries no state beyond its fixed factory table and is left implicit. -/
structure FlowgraphLoader where
  config : FlowgraphConfig
  block_map : BlockMap := []
  conditions : CondMap := []
deriving DecidableEq

/-- `FlowgraphLoader::build` (toml_loader.rs lines 214-261): create blocks,
then stream connections, then message connections, short-circuiting on the
first error. Also returns the creation log. -/
def FlowgraphLoader.build (loader : FlowgraphLoader) (fg : Flowgraph) :
    Except String (FlowgraphLoader × Flowgraph × List CreateEvent) :=
  match create_blocks loader.conditions loader.config.blocks
      loader.block_map fg [] with
  | .error e => .error e
  | .ok (m, fg1, log) =>
    match connect_streams loader.conditions m loader.config.connections fg1 with
    | .error e => .error e
    | .ok fg2 =>
      match connect_messages loader.conditions m
          loader.config.message_connections fg2 with
      | .error e => .error e
      | .ok fg3 => .ok ({ loader with block_map := m }, fg3, log)

/-- `FlowgraphLoader::get_block` (toml_loader.rs lines 269-271). -/
def FlowgraphLoader.get_block (loader : FlowgraphLoader) (name : String) :
    Option Nat :=
  loader.block_map.lookup name

/-- `load_flowgraph` (toml_loader.rs lines 283-288): the source reads and
parses a TOML file, then builds on a fresh flowgraph with an empty condition
map and an empty block map. File reading and TOML parsing are not modelled;
the function takes the parsed configuration. -/
def load_flowgraph (config : FlowgraphConfig) : Except String Flowgraph :=
  match FlowgraphLoader.build { config := config } {} with
  | .error e => .error e
  | .ok (_, fg, _) => .ok fg

/-- The PMT variants the embedded handlers inspect. The remaining variants of
the Rust enum (VecFloat, MapStrPmt, Any, ...) all take the catch-all match arm
of every embedded handler, exactly as the listed non-String, non-F64,
non-Blob variants do, and are omitted. -/
inductive Pmt where
  | null
  | ok
  | bool (b : Bool)
  | u32 (v : Nat)
  | u64 (v : Nat)
  | f32 (v : FloatRepr)
  | f64 (v : FloatRepr)
  | string (s : String)
  | blob (bytes : List UInt8)
deriving DecidableEq

/-- Operational condition of one global mpsc channel as the controller
handlers see it: the mutex around the sender may be poisoned, and the
receiving end may have been dropped. -/
structure ChannelState where
  poisoned : Bool := false
  disconnected : Bool := false
deriving DecidableEq

/-- Result of one invocation of the `control` handler: the reply PMT and the
path sent on the reload channel, when one was sent. -/
structure ControlOut where
  reply : Pmt
  sent : Option String := none
deriving DecidableEq

/-- `FlowgraphController::control` (flowgraph_controller.rs lines 42-80).
A `String` payload is forwarded on the global reload channel when the channel
is configured, its lock succeeds and the send succeeds, replying `Pmt::Ok`;
every failure replies a `Pmt::String` error description. The Rust send error
renders as `sending on a closed channel`. The handler state is the condition
of the reload channel; `none` means `set_reload_channel` was never called. -/
def FlowgraphController.control (reload_channel : Option ChannelState)
    (p : Pmt) : Except String ControlOut :=
  match p with
  | .string path =>
    match reload_channel with
    | some ch =>
      if ch.poisoned then
        .ok { reply := .string "Error: Channel lock failed" }
      else if ch.disconnected then
        .ok { reply := .string "Error: sending on a closed channel" }
      else
        .ok { reply := .ok, sent := some path }
    | none => .ok { reply := .string "Error: No reload channel" }
  | _ => .ok { reply := .string "Error: Expected Pmt::String" }

/-- Opaque renderings used by the `rx` and `tx` handlers: the debug format of
a lossy UTF-8 decoding, the debug format of a PMT, and the debug format of a
failed message post. The handlers only embed these strings into replies; no
claim depends on their exact content. -/
structure RenderEnv where
  lossyDebug : List UInt8 → String
  pmtDebug : Pmt → String
  postErrDebug : String

/-- Result of one invocation of the `rx` handler: the messages posted on
output ports in order, the gain value sent on the global gain channel when
one was sent, and the reply PMT. -/
structure RxOut where
  posts : List (String × Pmt)
  gainSent : Option FloatRepr := none
  reply : Pmt
deriving DecidableEq

/-- `FlowgraphController::rx` (flowgraph_controller.rs lines 103-176).
An `F64` payload is treated as a gain-control message: it is sent on the
global gain channel when possible (failures are only logged), a
`gain:<value>` string is posted to `rx_out`, and the reply is `Pmt::Ok`
regardless of the post result. Every other payload is converted to a
`Pmt::String` display message (a `Blob` by UTF-8 decoding, falling back to a
debug rendering; a `String` unchanged; anything else by debug rendering) and
posted to `rx_out`; the reply is `Pmt::Ok` when the post succeeds and an
error string otherwise. `post_ok` is whether `mio.post` on `rx_out`
succeeds. -/
def FlowgraphController.rx (env : RenderEnv) (gain_channel : Option ChannelState)
    (post_ok : Bool) (p : Pmt) : Except String RxOut :=
  match p with
  | .f64 g =>
    let sent :=
      match gain_channel with
      | some ch => if !ch.poisoned && !ch.disconnected then some g else none
      | none => none
    .ok { posts := [("rx_out", .string ("gain:" ++ g.render))],
          gainSent := sent, reply := .ok }
  | _ =>
    let display_msg :=
      match p with
      | .blob bytes =>
        match String.fromUTF8? (ByteArray.mk (Array.mk bytes)) with
        | some s => Pmt.string s
        | none => Pmt.string (env.lossyDebug bytes)
      | .string s => Pmt.string s
      | _ => Pmt.string (env.pmtDebug p)
    if post_ok then
      .ok { posts := [("rx_out", display_msg)], reply := .ok }
    else
      .ok { posts := [("rx_out", display_msg)],
            reply := .string ("Error forwarding: " ++ env.postErrDebug) }

/-- Result of one invocation of the `tx` handler. -/
structure TxOut where
  posts : List (String × Pmt)
  reply : Pmt
deriving DecidableEq

/-- `FlowgraphController::tx` (flowgraph_controller.rs lines 82-101): forward
the payload unchanged to `tx_out`; reply `Pmt::Ok` on success and an error
string when the post fails. -/
def FlowgraphController.tx (env : RenderEnv) (post_ok : Bool) (p : Pmt) :
    Except String TxOut :=
  if post_ok then
    .ok { posts := [("tx_out", p)], reply := .ok }
  else
    .ok { posts := [("tx_out", p)],
          reply := .string ("Error forwarding: " ++ env.postErrDebug) }

/-- The identity of an mpsc sender handed to the global channels; only the
identity matters for the once-initialization claims. -/
abbrev SenderTok := Nat

/-- The two `OnceLock` globals of flowgraph_controller.rs: `RELOAD_CHANNEL`
and `GAIN_CHANNEL`. `none` is the uninitialized state. -/
structure ControllerGlobals where
  reload_channel : Option SenderTok := none
  gain_channel : Option SenderTok := none
deriving DecidableEq

/-- `OnceLock::set` followed by `.ok()`: the set succeeds only on an unset
cell; on an already-set cell the error is discarded and the stored value is
kept. -/
def onceLockSet (cell : Option SenderTok) (v : SenderTok) : Option SenderTok :=
  match cell with
  | some w => some w
  | none => some v

/-- `set_reload_channel` (flowgraph_controller.rs lines 17-19). -/
def set_reload_channel (g : ControllerGlobals) (tx : SenderTok) :
    ControllerGlobals :=
  { g with reload_channel := onceLockSet g.reload_channel tx }

/-- `set_gain_channel` (flowgraph_controller.rs lines 22-24). -/
def set_gain_channel (g : ControllerGlobals) (tx : SenderTok) :
    ControllerGlobals :=
  { g with gain_channel := onceLockSet g.gain_channel tx }

/-- What `load_flowgraph_with_loader` hands the supervisor besides the
flowgraph: the loader, of which only the block map is consulted. -/
structure LoaderInfo where
  block_map : BlockMap
deriving DecidableEq

/-- Outcome of `reload_rx.recv_timeout` in the supervisor loop. -/
inductive RecvOutcome where
  | msg (path : String)
  | timeout
  | disconnected
deriving DecidableEq

/-- The environment one iteration of the supervisor loop interacts with:
the result of loading a given configuration path, the result of
`Runtime::start_sync` on the graph built from that path, and the outcome of
the receive on the reload channel. -/
structure SupervisorEnv where
  load : String → Except String LoaderInfo
  start : String → Except String Unit
  recv : RecvOutcome

/-- Observable events of one iteration of the supervisor loop of
radio_frontend.rs, in the order they happen. `terminatedOld` marks the
completed synchronous `block_on(old_handle.terminate_and_wait())`;
`calledRx id p` marks `new_fg_handle.call(id, "rx", p)`; `waitReload` marks
the blocking `reload_rx.recv_timeout`; `sleptRetry` marks the two-second
retry sleep. -/
inductive SupEvent where
  | terminatedOld
  | loadAttempt (path : String)
  | loadFailed (e : String)
  | startFailed (e : String)
  | started (path : String)
  | calledRx (blockId : Nat) (p : Pmt)
  | waitReload
  | receivedReload (path : String)
  | sleptRetry
deriving DecidableEq

/-- True exactly on a `calledRx` event. -/
def SupEvent.isCalledRx : SupEvent → Bool
  | .calledRx _ _ => true
  | _ => false

/-- True exactly on a `started` event. -/
def SupEvent.isStarted : SupEvent → Bool
  | .started _ => true
  | _ => false

/-- The per-iteration state of the supervisor loop: the configuration path to
load and whether a flowgraph handle from a previous iteration is held. -/
structure SupState where
  current_file : String
  handle : Option Unit := none
deriving DecidableEq

/-- Whether the loop continues with a state or breaks out of the loop (on a
disconnected reload channel). -/
inductive StepOut where
  | next (st : SupState)
  | exitLoop (st : SupState)
deriving DecidableEq

/-- One iteration of the supervisor loop in `main` of radio_frontend.rs
(lines 60-132): terminate the previous flowgraph when one is held, then load
the current configuration; on load failure log and sleep the retry interval;
on start failure log and sleep; on success post `Pmt::String("reload")` to
the `rx` port of the block named `flowgraph_controller` when the loader map
has one, then block on the reload channel. -/
def supervisor_step (env : SupervisorEnv) (st : SupState) :
    List SupEvent × StepOut :=
  let term : List SupEvent :=
    match st.handle with
    | some _ => [.terminatedOld]
    | none => []
  match env.load st.current_file with
  | .error e =>
    (term ++ [.loadAttempt st.current_file, .loadFailed e, .sleptRetry],
     .next { current_file := st.current_file, handle := none })
  | .ok info =>
    match env.start st.current_file with
    | .error e =>
      (term ++ [.loadAttempt st.current_file, .startFailed e, .sleptRetry],
       .next { current_file := st.current_file, handle := none })
    | .ok _ =>
      let post : List SupEvent :=
        match info.block_map.lookup "flowgraph_controller" with
        | some cid => [.calledRx cid (.string "reload")]
        | none => []
      let evs := term ++ [.loadAttempt st.current_file,
        .started st.current_file] ++ post ++ [.waitReload]
      match env.recv with
      | .msg p =>
        (evs ++ [.receivedReload p],
         .next { current_file := p, handle := some () })
      | .timeout =>
        (evs, .next { current_file := st.current_file, handle := some () })
      | .disconnected =>
        (evs, .exitLoop { current_file := st.current_file, handle := some () })

/-- The names of the block entries a build with the given condition map
instantiates: every entry not skipped by its guard. -/
def instantiatedNames (config : FlowgraphConfig) (conditions : CondMap) :
    List String :=
  (config.blocks.filter (fun b => !blockSkipped conditions b)).map
    (fun b => b.name)

/-- A configuration whose FlowgraphController entry is second in the blocks
list. -/
def c1Config : FlowgraphConfig :=
  { blocks := [
      { name := "src", block_type := "NullSource" },
      { name := "ctrl", block_type := "FlowgraphController" } ] }

/-- A configuration whose FlowgraphController entry is the only block. -/
def c1FirstConfig : FlowgraphConfig :=
  { blocks := [ { name := "ctrl", block_type := "FlowgraphController" } ] }

/-- A configuration with a single optional block of a type nobody
registered. -/
def c6Config : FlowgraphConfig :=
  { blocks := [ { name := "x", block_type := "NoSuchType", optional := true } ] }

/-- A configuration with two block entries sharing the name `x`. -/
def c10Config : FlowgraphConfig :=
  { blocks := [
      { name := "x", block_type := "NullSource" },
      { name := "x", block_type := "NullSink" } ] }

/-- A supervisor environment in which loading always fails. -/
def envLoadFails : SupervisorEnv :=
  { load := fun _ => .error "parse error",
    start := fun _ => .ok (),
    recv := .timeout }

/-- A supervisor environment in which loading and starting succeed and the
loader map has no entry named `flowgraph_controller`. -/
def envNoController : SupervisorEnv :=
  { load := fun _ => .ok { block_map := [("src", 0)] },
    start := fun _ => .ok (),
    recv := .timeout }

/-- A supervisor environment in which loading and starting succeed and the
loader map has the controller at id 0. -/
def envWithController : SupervisorEnv :=
  { load := fun _ => .ok { block_map := [("flowgraph_controller", 0)] },
    start := fun _ => .ok (),
    recv := .timeout }

/-- A concrete rendering environment for handler witnesses. -/
def renderEnvW : RenderEnv :=
  { lossyDebug := fun _ => "lossy",
    pmtDebug := fun _ => "pmt",
    postErrDebug := "HandlerError" }

/-- A configuration exercising the port-name defaults: the stream connection
omits both ports, the message connection omits the destination port. -/
def c7Config : FlowgraphConfig :=
  { blocks := [
      { name := "a", block_type := "NullSource" },
      { name := "b", block_type := "NullSink" } ],
    connections := [ { from_ := "a", to_ := "b" } ],
    message_connections := [ { from_ := "a", from_port := "foo", to_ := "b" } ] }

/-- The loader a successful build of `c7Config` returns. -/
def c7Loader : FlowgraphLoader :=
  { config := c7Config, block_map := [("b", 1), ("a", 0)] }

/-- The flowgraph a successful build of `c7Config` returns. -/
def c7Fg : Flowgraph :=
  { blocks := [⟨0, "NullSource"⟩, ⟨1, "NullSink"⟩], nextId := 2,
    stream_edges := [⟨0, "output", 1, "input"⟩],
    message_edges := [⟨0, "foo", 1, "foo"⟩] }

/-- The creation log a successful build of `c7Config` returns. -/
def c7Log : List CreateEvent :=
  [⟨"a", "NullSource", 0⟩, ⟨"b", "NullSink", 1⟩]

/-- A configuration with one guarded-out block, one condition-true connection
and one condition-false connection, under the empty condition map. -/
def c8Config : FlowgraphConfig :=
  { blocks := [
      { name := "keep", block_type := "NullSource" },
      { name := "skipme", block_type := "NullSink", optional := true } ],
    connections := [
      { from_ := "keep", to_ := "keep", conditional := some "!x" },
      { from_ := "keep", to_ := "keep", conditional := some "x" } ] }

/-- The loader a successful build of `c8Config` returns. -/
def c8Loader : FlowgraphLoader :=
  { config := c8Config, block_map := [("keep", 0)] }

/-- The flowgraph a successful build of `c8Config` returns. -/
def c8Fg : Flowgraph :=
  { blocks := [⟨0, "NullSource"⟩], nextId := 1,
    stream_edges := [⟨0, "output", 0, "input"⟩] }

/-- The creation log a successful build of `c8Config` returns. -/
def c8Log : List CreateEvent := [⟨"keep", "NullSource", 0⟩]

/-- The loader a successful build of `c1FirstConfig` returns. -/
def c1FirstLoader : FlowgraphLoader :=
  { config := c1FirstConfig, block_map := [("ctrl", 0)] }

/-- The flowgraph a successful build of `c1FirstConfig` returns. -/
def c1FirstFg : Flowgraph :=
  { blocks := [⟨0, "FlowgraphController"⟩], nextId := 1 }

/-- The creation log a successful build of `c1FirstConfig` returns. -/
def c1FirstLog : List CreateEvent := [⟨"ctrl", "FlowgraphController", 0⟩]

/-- A configuration with a non-optional block of an unregistered type. -/
def c6BadConfig : FlowgraphConfig :=
  { blocks := [ { name := "y", block_type := "NoSuchType" } ] }

/-- The loader a successful build of `c10Config` returns. -/
def c10Loader : FlowgraphLoader :=
  { config := c10Config, block_map := [("x", 1), ("x", 0)] }

/-- The flowgraph a successful build of `c10Config` returns. -/
def c10Fg : Flowgraph :=
  { blocks := [⟨0, "NullSource"⟩, ⟨1, "NullSink"⟩], nextId := 2 }

/-- The creation log a successful build of `c10Config` returns. -/
def c10Log : List CreateEvent :=
  [⟨"x", "NullSource", 0⟩, ⟨"x", "NullSink", 1⟩]

/-! ### Helper lemmas about the build pipeline -/

/-- Every successful block creation is one `add_block` on the given
flowgraph. -/
theorem create_block_ok {fg : Flowgraph} {config : BlockConfig}
    {r : Nat × Flowgraph} (h : create_block fg config = .ok r) :
    ∃ k, r = fg.add_block k := by
  unfold create_block at h
  split at h
  · unfold factory_create at h
    split at h
    · exact absurd h (by simp)
    · exact ⟨_, (by simpa using h.symm)⟩
  · exact absurd h (by simp)

/-- A block whose type has no registered factory is never created. -/
theorem create_block_unregistered {fg : Flowgraph} {config : BlockConfig}
    (h : registeredTypes.contains config.block_type = false) :
    create_block fg config =
      .error ("No factory registered for block type: " ++ config.block_type) := by
  unfold create_block
  rw [h]
  simp

/-- Unfolding facts about `add_block`. -/
theorem add_block_fst (fg : Flowgraph) (k : String) :
    (fg.add_block k).1 = fg.nextId := rfl

/-- The main structure lemma for step 1 of the build: on success, the
creation log extends by one event per non-skipped block entry in order, the
assigned ids are consecutive from the incoming flowgraph, the block map gains
the new entries with the newest first, and the flowgraph gains exactly the
new blocks and no edges. -/
theorem create_blocks_spec (conditions : CondMap) :
    ∀ (bs : List BlockConfig) (m : BlockMap) (fg : Flowgraph)
      (log : List CreateEvent) (m2 : BlockMap) (fg2 : Flowgraph)
      (log2 : List CreateEvent),
    create_blocks conditions bs m fg log = .ok (m2, fg2, log2) →
    ∃ new : List CreateEvent,
      log2 = log ++ new ∧
      new.map (fun e => (e.name, e.block_type)) =
        (bs.filter (fun b => !blockSkipped conditions b)).map
          (fun b => (b.name, b.block_type)) ∧
      new.map (fun e => e.id) = List.range' fg.nextId new.length ∧
      m2 = new.reverse.map (fun e => (e.name, e.id)) ++ m ∧
      fg2.nextId = fg.nextId + new.length ∧
      fg2.blocks.map (fun b => b.id) =
        fg.blocks.map (fun b => b.id) ++ new.map (fun e => e.id) ∧
      fg2.stream_edges = fg.stream_edges ∧
      fg2.message_edges = fg.message_edges := by
  intro bs
  induction bs with
  | nil =>
    intro m fg log m2 fg2 log2 h
    simp [create_blocks] at h
    obtain ⟨h1, h2, h3⟩ := h
    exact ⟨[], by simp [h1, h2, h3]⟩
  | cons b rest ih =>
    intro m fg log m2 fg2 log2 h
    by_cases hskip : blockSkipped conditions b = true
    · rw [create_blocks, if_pos hskip] at h
      obtain ⟨new, hlog, hnames, hids, hmap, hnext, hblocks, hs, hm⟩ :=
        ih m fg log m2 fg2 log2 h
      exact ⟨new, hlog, by simp [hskip, hnames], hids, hmap, hnext, hblocks, hs, hm⟩
    · rw [create_blocks, if_neg hskip] at h
      cases hc : create_block fg b with
      | error e => rw [hc] at h; exact absurd h (by simp)
      | ok r =>
        rw [hc] at h
        obtain ⟨k, hk⟩ := create_block_ok hc
        obtain ⟨id, fg1⟩ := r
        have hid : id = fg.nextId := by
          have := congrArg Prod.fst hk; simpa using this
        have hfg1b : fg1.blocks = fg.blocks ++ [⟨fg.nextId, k⟩] := by
          have := congrArg (fun p => (Prod.snd p).blocks) hk
          simpa [Flowgraph.add_block] using this
        have hfg1n : fg1.nextId = fg.nextId + 1 := by
          have := congrArg (fun p => (Prod.snd p).nextId) hk
          simpa [Flowgraph.add_block] using this
        have hfg1s : fg1.stream_edges = fg.stream_edges := by
          have := congrArg (fun p => (Prod.snd p).stream_edges) hk
          simpa [Flowgraph.add_block] using this
        have hfg1m : fg1.message_edges = fg.message_edges := by
          have := congrArg (fun p => (Prod.snd p).message_edges) hk
          simpa [Flowgraph.add_block] using this
        obtain ⟨new1, hlog, hnames, hids, hmap, hnext, hblocks, hs, hm⟩ :=
          ih ((b.name, id) :: m) fg1 (log ++ [⟨b.name, b.block_type, id⟩])
            m2 fg2 log2 h
        refine ⟨⟨b.name, b.block_type, id⟩ :: new1, ?_, ?_, ?_, ?_, ?_, ?_, ?_, ?_⟩
        · simpa using hlog
        · simp [hskip, hnames]
        · simp only [List.map_cons, List.length_cons, hid]
          rw [List.range'_succ]
          simp [hids, hfg1n, hid]
        · simp [hmap, List.reverse_cons, List.map_append]
        · simp only [List.length_cons]
          omega
        · rw [hblocks, hfg1b]
          simp [hid]
        · rw [hs, hfg1s]
        · rw [hm, hfg1m]

/-- Structure lemma for step 2 of the build: on success the blocks and
message edges are untouched, exactly one stream edge is appended per
condition-true connection entry, and every condition-true entry resolved both
endpoint names and contributed its edge with the defaulted port names. -/
theorem connect_streams_spec (conditions : CondMap) (m : BlockMap) :
    ∀ (cs : List ConnectionConfig) (fg fg2 : Flowgraph),
    connect_streams conditions m cs fg = .ok fg2 →
    fg2.blocks = fg.blocks ∧ fg2.nextId = fg.nextId ∧
    fg2.message_edges = fg.message_edges ∧
    ∃ added : List StreamEdge,
      fg2.stream_edges = fg.stream_edges ++ added ∧
      added.length =
        (cs.filter (fun c => eval_condition conditions c.conditional)).length ∧
      (∀ c ∈ cs, eval_condition conditions c.conditional = true →
        ∃ s d, m.lookup c.from_ = some s ∧ m.lookup c.to_ = some d ∧
          (⟨s, c.from_port.getD "output", d, c.to_port.getD "input"⟩ :
            StreamEdge) ∈ added) := by
  intro cs
  induction cs with
  | nil =>
    intro fg fg2 h
    simp [connect_streams] at h
    exact ⟨by rw [h], by rw [h], by rw [h], [], by simp [h], by simp, by simp⟩
  | cons c rest ih =>
    intro fg fg2 h
    by_cases hev : eval_condition conditions c.conditional = true
    · rw [connect_streams, if_neg (by simp [hev])] at h
      cases hf : m.lookup c.from_ with
      | none => rw [hf] at h; exact absurd h (by simp)
      | some s =>
        rw [hf] at h
        cases ht : m.lookup c.to_ with
        | none => rw [ht] at h; exact absurd h (by simp)
        | some d =>
          rw [ht] at h
          simp only [Flowgraph.connect_dyn] at h
          obtain ⟨hb, hn, hm, added1, hedges, hlen, hmem⟩ := ih _ fg2 h
          refine ⟨by simpa using hb, by simpa using hn, by simpa using hm,
            ⟨s, c.from_port.getD "output", d, c.to_port.getD "input"⟩ :: added1,
            ?_, ?_, ?_⟩
          · simp at hedges
            simp [hedges]
          · simp [hlen, hev]
          · intro c2 hc2 hev2
            rcases List.mem_cons.mp hc2 with rfl | hc2r
            · exact ⟨s, d, hf, ht, List.mem_cons_self _ _⟩
            · obtain ⟨s2, d2, hf2, ht2, hmem2⟩ := hmem c2 hc2r hev2
              exact ⟨s2, d2, hf2, ht2, List.mem_cons_of_mem _ hmem2⟩
    · rw [connect_streams, if_pos (by simp [hev])] at h
      obtain ⟨hb, hn, hm, added1, hedges, hlen, hmem⟩ := ih fg fg2 h
      refine ⟨hb, hn, hm, added1, hedges, ?_, ?_⟩
      · simp [hlen, hev]
      · intro c2 hc2 hev2
        rcases List.mem_cons.mp hc2 with rfl | hc2r
        · exact absurd hev2 hev
        · exact hmem c2 hc2r hev2

/-- Structure lemma for step 3 of the build: on success the blocks and stream
edges are untouched, exactly one message edge is appended per condition-true
entry, and every condition-true entry resolved both endpoint names and
contributed its edge, the destination port defaulting to the source port
name. -/
theorem connect_messages_spec (conditions : CondMap) (m : BlockMap) :
    ∀ (cs : List MessageConnectionConfig) (fg fg2 : Flowgraph),
    connect_messages conditions m cs fg = .ok fg2 →
    fg2.blocks = fg.blocks ∧ fg2.nextId = fg.nextId ∧
    fg2.stream_edges = fg.stream_edges ∧
    ∃ added : List MessageEdge,
      fg2.message_edges = fg.message_edges ++ added ∧
      added.length =
        (cs.filter (fun c => eval_condition conditions c.conditional)).length ∧
      (∀ c ∈ cs, eval_condition conditions c.conditional = true →
        ∃ s d, m.lookup c.from_ = some s ∧ m.lookup c.to_ = some d ∧
          (⟨s, c.from_port, d, c.to_port.getD c.from_port⟩ :
            MessageEdge) ∈ added) := by
  intro cs
  induction cs with
  | nil =>
    intro fg fg2 h
    simp [connect_messages] at h
    exact ⟨by rw [h], by rw [h], by rw [h], [], by simp [h], by simp, by simp⟩
  | cons c rest ih =>
    intro fg fg2 h
    by_cases hev : eval_condition conditions c.conditional = true
    · rw [connect_messages, if_neg (by simp [hev])] at h
      cases hf : m.lookup c.from_ with
      | none => rw [hf] at h; exact absurd h (by simp)
      | some s =>
        rw [hf] at h
        cases ht : m.lookup c.to_ with
        | none => rw [ht] at h; exact absurd h (by simp)
        | some d =>
          rw [ht] at h
          simp only [Flowgraph.connect_message] at h
          obtain ⟨hb, hn, hm, added1, hedges, hlen, hmem⟩ := ih _ fg2 h
          refine ⟨by simpa using hb, by simpa using hn, by simpa using hm,
            ⟨s, c.from_port, d, c.to_port.getD c.from_port⟩ :: added1,
            ?_, ?_, ?_⟩
          · simp at hedges
            simp [hedges]
          · simp [hlen, hev]
          · intro c2 hc2 hev2
            rcases List.mem_cons.mp hc2 with rfl | hc2r
            · exact ⟨s, d, hf, ht, List.mem_cons_self _ _⟩
            · obtain ⟨s2, d2, hf2, ht2, hmem2⟩ := hmem c2 hc2r hev2
              exact ⟨s2, d2, hf2, ht2, List.mem_cons_of_mem _ hmem2⟩
    · rw [connect_messages, if_pos (by simp [hev])] at h
      obtain ⟨hb, hn, hm, added1, hedges, hlen, hmem⟩ := ih fg fg2 h
      refine ⟨hb, hn, hm, added1, hedges, ?_, ?_⟩
      · simp [hlen, hev]
      · intro c2 hc2 hev2
        rcases List.mem_cons.mp hc2 with rfl | hc2r
        · exact absurd hev2 hev
        · exact hmem c2 hc2r hev2

/-- If some non-skipped entry has an unregistered type, step 1 fails. -/
theorem create_blocks_err (conditions : CondMap) :
    ∀ (bs : List BlockConfig) (m : BlockMap) (fg : Flowgraph)
      (log : List CreateEvent) (b : BlockConfig),
    b ∈ bs → blockSkipped conditions b = false →
    registeredTypes.contains b.block_type = false →
    ∃ e, create_blocks conditions bs m fg log = .error e := by
  intro bs
  induction bs with
  | nil => intro m fg log b hb; exact absurd hb (by simp)
  | cons b0 rest ih =>
    intro m fg log b hb hns hreg
    by_cases hskip : blockSkipped conditions b0 = true
    · rw [create_blocks, if_pos hskip]
      rcases List.mem_cons.mp hb with rfl | hbr
      · rw [hns] at hskip; exact absurd hskip (by simp)
      · exact ih m fg log b hbr hns hreg
    · rw [create_blocks, if_neg hskip]
      cases hc : create_block fg b0 with
      | error e => exact ⟨e, rfl⟩
      | ok r =>
        rcases List.mem_cons.mp hb with rfl | hbr
        · rw [create_block_unregistered hreg] at hc
          exact absurd hc (by simp)
        · exact ih _ _ _ b hbr hns hreg

/-- If some condition-true stream connection entry has an unresolvable
endpoint name, step 2 fails. -/
theorem connect_streams_err (conditions : CondMap) (m : BlockMap) :
    ∀ (cs : List ConnectionConfig) (fg : Flowgraph) (c : ConnectionConfig),
    c ∈ cs → eval_condition conditions c.conditional = true →
    (m.lookup c.from_ = none ∨ m.lookup c.to_ = none) →
    ∃ e, connect_streams conditions m cs fg = .error e := by
  intro cs
  induction cs with
  | nil => intro fg c hc; exact absurd hc (by simp)
  | cons c0 rest ih =>
    intro fg c hc hev hlk
    by_cases hev0 : eval_condition conditions c0.conditional = true
    · rw [connect_streams, if_neg (by simp [hev0])]
      cases hf : m.lookup c0.from_ with
      | none => exact ⟨_, rfl⟩
      | some s =>
        cases ht : m.lookup c0.to_ with
        | none => exact ⟨_, rfl⟩
        | some d =>
          rcases List.mem_cons.mp hc with rfl | hcr
          · rcases hlk with hn | hn
            · rw [hf] at hn; exact absurd hn (by simp)
            · rw [ht] at hn; exact absurd hn (by simp)
          · simp only [Flowgraph.connect_dyn]
            exact ih _ c hcr hev hlk
    · rw [connect_streams, if_pos (by simp [hev0])]
      rcases List.mem_cons.mp hc with rfl | hcr
      · exact absurd hev hev0
      · exact ih fg c hcr hev hlk

/-- If some condition-true message connection entry has an unresolvable
endpoint name, step 3 fails. -/
theorem connect_messages_err (conditions : CondMap) (m : BlockMap) :
    ∀ (cs : List MessageConnectionConfig) (fg : Flowgraph)
      (c : MessageConnectionConfig),
    c ∈ cs → eval_condition conditions c.conditional = true →
    (m.lookup c.from_ = none ∨ m.lookup c.to_ = none) →
    ∃ e, connect_messages conditions m cs fg = .error e := by
  intro cs
  induction cs with
  | nil => intro fg c hc; exact absurd hc (by simp)
  | cons c0 rest ih =>
    intro fg c hc hev hlk
    by_cases hev0 : eval_condition conditions c0.conditional = true
    · rw [connect_messages, if_neg (by simp [hev0])]
      cases hf : m.lookup c0.from_ with
      | none => exact ⟨_, rfl⟩
      | some s =>
        cases ht : m.lookup c0.to_ with
        | none => exact ⟨_, rfl⟩
        | some d =>
          rcases List.mem_cons.mp hc with rfl | hcr
          · rcases hlk with hn | hn
            · rw [hf] at hn; exact absurd hn (by simp)
            · rw [ht] at hn; exact absurd hn (by simp)
          · simp only [Flowgraph.connect_message]
            exact ih _ c hcr hev hlk
    · rw [connect_messages, if_pos (by simp [hev0])]
      rcases List.mem_cons.mp hc with rfl | hcr
      · exact absurd hev hev0
      · exact ih fg c hcr hev hlk

/-- A lookup on an association list is `none` exactly when the key is not
among the stored keys. -/
theorem lookup_eq_none_iff {m : BlockMap} {k : String} :
    m.lookup k = none ↔ k ∉ m.map (fun p => p.1) := by
  induction m with
  | nil => simp [List.lookup]
  | cons p rest ih =>
    by_cases hk : k = p.1
    · subst hk
      simp [List.lookup]
    · have hbeq : (k == p.1) = false := by simpa using hk
      simp only [List.lookup, hbeq, List.map_cons, List.mem_cons]
      simp [ih, hk]

/-- Decomposition of a successful `FlowgraphLoader::build` into its three
stages. -/
theorem build_ok_elim {loader : FlowgraphLoader} {fg : Flowgraph}
    {loader2 : FlowgraphLoader} {fg3 : Flowgraph} {log : List CreateEvent}
    (h : loader.build fg = .ok (loader2, fg3, log)) :
    ∃ m fg1 fg2,
      create_blocks loader.conditions loader.config.blocks loader.block_map
        fg [] = .ok (m, fg1, log) ∧
      connect_streams loader.conditions m loader.config.connections fg1 =
        .ok fg2 ∧
      connect_messages loader.conditions m loader.config.message_connections
        fg2 = .ok fg3 ∧
      loader2 = { loader with block_map := m } := by
  unfold FlowgraphLoader.build at h
  split at h
  · exact absurd h (by simp)
  next m fg1 log1 hcb =>
    split at h
    · exact absurd h (by simp)
    next fg2 hcs =>
      split at h
      · exact absurd h (by simp)
      next fg3b hcm =>
        simp only [Except.ok.injEq, Prod.mk.injEq] at h
        obtain ⟨h1, h2, h3⟩ := h
        exact ⟨m, fg1, fg2, h3 ▸ hcb, hcs, h2 ▸ hcm, h1.symm⟩

/-! ### Claim theorems -/

/-- C9: once `set_reload_channel` has installed a sender into the global
reload channel, every later call leaves the installed sender unchanged, and
the same holds for `set_gain_channel` and the gain channel. The last two
conjuncts record that a set on the fresh (unset) globals installs the given
sender, so the first two cover every later call after installation. -/
theorem c9_channels_never_replaced :
    ∀ (g : ControllerGlobals) (tx tx2 : SenderTok),
    (set_reload_channel (set_reload_channel g tx) tx2).reload_channel =
      (set_reload_channel g tx).reload_channel ∧
    (set_gain_channel (set_gain_channel g tx) tx2).gain_channel =
      (set_gain_channel g tx).gain_channel ∧
    (set_reload_channel {} tx).reload_channel = some tx ∧
    (set_gain_channel {} tx).gain_channel = some tx := by
  intro g tx tx2
  refine ⟨?_, ?_, rfl, rfl⟩
  · cases hg : g.reload_channel <;>
      simp [set_reload_channel, onceLockSet, hg]
  · cases hg : g.gain_channel <;>
      simp [set_gain_channel, onceLockSet, hg]

/-- C5: for every payload delivered to the control port, the handler returns
`Ok` (it never returns an error result); when the payload is a `String` path,
the reload channel is configured, its lock is healthy and the send succeeds,
the path is sent on the channel and the reply is `Pmt::Ok`; in every other
case (non-String payload, unconfigured channel, poisoned lock, disconnected
receiver) nothing is sent and the reply is a `Pmt::String` error
description. -/
theorem c5_control_reply_convention :
    ∀ (ch : Option ChannelState) (p : Pmt),
    ∃ out, FlowgraphController.control ch p = .ok out ∧
      (match p, ch with
       | Pmt.string path, some c =>
         if c.poisoned = false ∧ c.disconnected = false then
           out = { reply := Pmt.ok, sent := some path }
         else out.sent = none ∧ ∃ s, out.reply = Pmt.string s
       | Pmt.string _, none => out.sent = none ∧ ∃ s, out.reply = Pmt.string s
       | _, _ => out.sent = none ∧ ∃ s, out.reply = Pmt.string s) := by
  intro ch p
  cases p with
  | string path =>
    cases ch with
    | none => exact ⟨_, rfl, by simp⟩
    | some c =>
      by_cases hp : c.poisoned = true
      · refine ⟨⟨Pmt.string "Error: Channel lock failed", none⟩, ?_, ?_⟩
        · simp [FlowgraphController.control, hp]
        · simp [hp]
      · by_cases hd : c.disconnected = true
        · refine ⟨⟨Pmt.string "Error: sending on a closed channel", none⟩, ?_, ?_⟩
          · simp [FlowgraphController.control, hp, hd]
          · simp [hp, hd]
        · refine ⟨⟨Pmt.ok, some path⟩, ?_, ?_⟩
          · simp [FlowgraphController.control, hp, hd]
          · simp [hp, hd]
  | null => exact ⟨_, rfl, by simp⟩
  | ok => exact ⟨_, rfl, by simp⟩
  | bool b => exact ⟨_, rfl, by simp⟩
  | u32 v => exact ⟨_, rfl, by simp⟩
  | u64 v => exact ⟨_, rfl, by simp⟩
  | f32 v => exact ⟨_, rfl, by simp⟩
  | f64 v => exact ⟨_, rfl, by simp⟩
  | blob bs => exact ⟨_, rfl, by simp⟩

/-- C2: in every supervisor-loop iteration in which a previous flowgraph
handle exists, the synchronous `terminate_and_wait` on that handle is the
first event of the iteration: it completes before the new configuration is
loaded and before any new flowgraph is started, so the new graph is started
only after the old one is fully drained. -/
theorem c2_terminate_before_load :
    ∀ (env : SupervisorEnv) (st : SupState), st.handle = some () →
    ∃ tl, (supervisor_step env st).1 = SupEvent.terminatedOld :: tl ∧
      SupEvent.terminatedOld ∉ tl ∧
      SupEvent.loadAttempt st.current_file ∈ tl := by
  intro env st h
  cases hl : env.load st.current_file with
  | error e =>
    exact ⟨[.loadAttempt st.current_file, .loadFailed e, .sleptRetry],
      by simp [supervisor_step, h, hl], by simp, by simp⟩
  | ok info =>
    cases hs : env.start st.current_file with
    | error e =>
      exact ⟨[.loadAttempt st.current_file, .startFailed e, .sleptRetry],
        by simp [supervisor_step, h, hl, hs], by simp, by simp⟩
    | ok u =>
      cases hp : info.block_map.lookup "flowgraph_controller" with
      | some cid =>
        cases hr : env.recv with
        | msg p =>
          exact ⟨[.loadAttempt st.current_file, .started st.current_file,
              .calledRx cid (.string "reload"), .waitReload, .receivedReload p],
            by simp [supervisor_step, h, hl, hs, hp, hr], by simp, by simp⟩
        | timeout =>
          exact ⟨[.loadAttempt st.current_file, .started st.current_file,
              .calledRx cid (.string "reload"), .waitReload],
            by simp [supervisor_step, h, hl, hs, hp, hr], by simp, by simp⟩
        | disconnected =>
          exact ⟨[.loadAttempt st.current_file, .started st.current_file,
              .calledRx cid (.string "reload"), .waitReload],
            by simp [supervisor_step, h, hl, hs, hp, hr], by simp, by simp⟩
      | none =>
        cases hr : env.recv with
        | msg p =>
          exact ⟨[.loadAttempt st.current_file, .started st.current_file,
              .waitReload, .receivedReload p],
            by simp [supervisor_step, h, hl, hs, hp, hr], by simp, by simp⟩
        | timeout =>
          exact ⟨[.loadAttempt st.current_file, .started st.current_file,
              .waitReload],
            by simp [supervisor_step, h, hl, hs, hp, hr], by simp, by simp⟩
        | disconnected =>
          exact ⟨[.loadAttempt st.current_file, .started st.current_file,
              .waitReload],
            by simp [supervisor_step, h, hl, hs, hp, hr], by simp, by simp⟩

/-- C2 witness: a concrete iteration holding a handle, on the environment
whose load fails. -/
theorem c2_terminate_before_load_witness :
    ∃ tl, (supervisor_step envLoadFails
        { current_file := "a.toml", handle := some () }).1 =
      SupEvent.terminatedOld :: tl ∧
      SupEvent.terminatedOld ∉ tl ∧
      SupEvent.loadAttempt "a.toml" ∈ tl :=
  c2_terminate_before_load envLoadFails
    { current_file := "a.toml", handle := some () } rfl

/-- C3 counterexample: after a failed load the iteration ends with the retry
sleep and contains no wait on the reload channel; the directly following
iteration attempts the load of the same path again and, once the path loads,
starts the graph — all without any reload request having been received. The
supervisor therefore does not return to waiting for the next reload request
after a load failure; it retries the same configuration. -/
theorem c3_counterexample :
    (supervisor_step envLoadFails { current_file := "a.toml" }).1 =
      [.loadAttempt "a.toml", .loadFailed "parse error", .sleptRetry] ∧
    (supervisor_step envLoadFails { current_file := "a.toml" }).2 =
      .next { current_file := "a.toml" } ∧
    SupEvent.waitReload ∉
      (supervisor_step envLoadFails { current_file := "a.toml" }).1 ∧
    (supervisor_step envNoController { current_file := "a.toml" }).1 =
      [.loadAttempt "a.toml", .started "a.toml", .waitReload] := by
  refine ⟨rfl, rfl, ?_, rfl⟩
  decide

/-- C3 (amended): whenever loading the requested configuration fails, the
supervisor logs the error, keeps the current-flowgraph slot empty, sleeps the
retry interval, and then retries loading the same configuration path on the
next iteration — it does not block on the reload channel first. It starts no
graph from the failed build and does not revert to the previously running
graph. -/
theorem c3_load_failure_keeps_slot_empty_and_retries :
    ∀ (env : SupervisorEnv) (st : SupState) (err : String),
    env.load st.current_file = .error err →
    ∃ pre, ((supervisor_step env st).1 =
        pre ++ [.loadAttempt st.current_file, .loadFailed err, .sleptRetry] ∧
      (pre = [] ∨ pre = [.terminatedOld])) ∧
    (supervisor_step env st).2 =
      .next { current_file := st.current_file, handle := none } ∧
    (∀ p, SupEvent.started p ∉ (supervisor_step env st).1) ∧
    SupEvent.waitReload ∉ (supervisor_step env st).1 ∧
    (∀ p, SupEvent.receivedReload p ∉ (supervisor_step env st).1) := by
  intro env st err hl
  cases hh : st.handle with
  | none =>
    refine ⟨[], ⟨?_, Or.inl rfl⟩, ?_, ?_, ?_, ?_⟩ <;>
      simp [supervisor_step, hh, hl]
  | some u =>
    refine ⟨[.terminatedOld], ⟨?_, Or.inr rfl⟩, ?_, ?_, ?_, ?_⟩ <;>
      simp [supervisor_step, hh, hl]

/-- C3 witness: the amended behavior at the concrete failing environment. -/
theorem c3_load_failure_witness :
    ∃ pre, ((supervisor_step envLoadFails { current_file := "b.toml" }).1 =
        pre ++ [.loadAttempt "b.toml", .loadFailed "parse error", .sleptRetry] ∧
      (pre = [] ∨ pre = [.terminatedOld])) ∧
    (supervisor_step envLoadFails { current_file := "b.toml" }).2 =
      .next { current_file := "b.toml", handle := none } ∧
    (∀ p, SupEvent.started p ∉
      (supervisor_step envLoadFails { current_file := "b.toml" }).1) ∧
    SupEvent.waitReload ∉
      (supervisor_step envLoadFails { current_file := "b.toml" }).1 ∧
    (∀ p, SupEvent.receivedReload p ∉
      (supervisor_step envLoadFails { current_file := "b.toml" }).1) :=
  c3_load_failure_keeps_slot_empty_and_retries envLoadFails
    { current_file := "b.toml" } "parse error" rfl

/-- C4 counterexample: an iteration whose load and start both succeed but
whose loader block map has no entry named `flowgraph_controller` emits no
`call(_, "rx", _)` at all, even though a flowgraph was started. The
supervisor therefore does not post `String("reload")` after every successful
start; the post is conditional on the name lookup. -/
theorem c4_counterexample :
    (supervisor_step envNoController { current_file := "c.toml" }).1 =
      [.loadAttempt "c.toml", .started "c.toml", .waitReload] ∧
    (supervisor_step envNoController
      { current_file := "c.toml" }).1.any SupEvent.isStarted = true ∧
    (supervisor_step envNoController
      { current_file := "c.toml" }).1.all
        (fun e => !(e.isCalledRx)) = true := by
  refine ⟨rfl, ?_, ?_⟩ <;> decide

/-- C4 (amended): after every successful start of a new flowgraph whose
loader block map has an entry named `flowgraph_controller`, the supervisor
posts `Pmt::String("reload")` to that block id on port `rx`; and the
controller rx handler posts every `Pmt::String` payload unchanged to its
`rx_out` output port. -/
theorem c4_reload_notification :
    (∀ (env : SupervisorEnv) (st : SupState) (info : LoaderInfo) (cid : Nat),
      env.load st.current_file = .ok info →
      env.start st.current_file = .ok () →
      info.block_map.lookup "flowgraph_controller" = some cid →
      SupEvent.calledRx cid (Pmt.string "reload") ∈ (supervisor_step env st).1)
    ∧ (∀ (renv : RenderEnv) (gch : Option ChannelState) (post_ok : Bool)
        (s : String),
      ∃ out, FlowgraphController.rx renv gch post_ok (Pmt.string s) = .ok out ∧
        out.posts = [("rx_out", Pmt.string s)]) := by
  constructor
  · intro env st info cid hl hs hp
    cases hr : env.recv <;>
      cases hh : st.handle <;>
        simp [supervisor_step, hh, hl, hs, hp, hr]
  · intro renv gch post_ok s
    cases post_ok with
    | true => exact ⟨_, rfl, rfl⟩
    | false => exact ⟨_, rfl, rfl⟩

/-- C4 witness: the concrete environment with a controller entry receives the
post, and the rx handler forwards a concrete string unchanged. -/
theorem c4_reload_notification_witness :
    SupEvent.calledRx 0 (Pmt.string "reload") ∈
      (supervisor_step envWithController { current_file := "c.toml" }).1 ∧
    ∃ out, FlowgraphController.rx renderEnvW none true (Pmt.string "hi") =
        .ok out ∧ out.posts = [("rx_out", Pmt.string "hi")] :=
  ⟨c4_reload_notification.1 envWithController { current_file := "c.toml" }
      { block_map := [("flowgraph_controller", 0)] } 0 rfl rfl rfl,
    c4_reload_notification.2 renderEnvW none true "hi"⟩

/-- Looking a key up in the pair image of an event list finds the id of the
first event with that name. -/
theorem lookup_map_pair :
    ∀ (l : List CreateEvent) (k : String),
    (l.map (fun e => (e.name, e.id))).lookup k =
      (l.find? (fun e => e.name == k)).map (fun e => e.id) := by
  intro l k
  induction l with
  | nil => rfl
  | cons e rest ih =>
    by_cases hk : e.name = k
    · subst hk
      simp [List.lookup, List.find?]
    · have h1 : (k == e.name) = false := by
        simp only [beq_eq_false_iff_ne, ne_eq]
        exact fun h => hk h.symm
      have h2 : (e.name == k) = false := by
        simp only [beq_eq_false_iff_ne, ne_eq]
        exact hk
      simp [List.lookup, List.find?, h1, h2, ih]

/-- A failing step 1 fails the whole build. -/
theorem build_err_create {loader : FlowgraphLoader} {fg : Flowgraph}
    {e : String}
    (h : create_blocks loader.conditions loader.config.blocks loader.block_map
      fg [] = .error e) :
    loader.build fg = .error e := by
  unfold FlowgraphLoader.build
  rw [h]

/-- A failing step 2 fails the whole build. -/
theorem build_err_streams {loader : FlowgraphLoader} {fg fg1 : Flowgraph}
    {m : BlockMap} {log : List CreateEvent} {e : String}
    (h1 : create_blocks loader.conditions loader.config.blocks loader.block_map
      fg [] = .ok (m, fg1, log))
    (h2 : connect_streams loader.conditions m loader.config.connections fg1 =
      .error e) :
    loader.build fg = .error e := by
  unfold FlowgraphLoader.build
  simp [h1, h2]

/-- A failing step 3 fails the whole build. -/
theorem build_err_messages {loader : FlowgraphLoader} {fg fg1 fg2 : Flowgraph}
    {m : BlockMap} {log : List CreateEvent} {e : String}
    (h1 : create_blocks loader.conditions loader.config.blocks loader.block_map
      fg [] = .ok (m, fg1, log))
    (h2 : connect_streams loader.conditions m loader.config.connections fg1 =
      .ok fg2)
    (h3 : connect_messages loader.conditions m
      loader.config.message_connections fg2 = .error e) :
    loader.build fg = .error e := by
  unfold FlowgraphLoader.build
  simp [h1, h2, h3]

/-- C7: during a successful build, every condition-true stream connection
entry yields an edge whose source port defaults to `output` and destination
port to `input` when omitted, between the ids its block names resolve to; and
every condition-true message connection entry yields a message edge whose
destination port defaults to the entry source port name. -/
theorem c7_connection_port_defaults :
    ∀ (config : FlowgraphConfig) (conditions : CondMap)
      (loader2 : FlowgraphLoader) (fg : Flowgraph) (log : List CreateEvent),
    FlowgraphLoader.build { config := config, conditions := conditions } {} =
      .ok (loader2, fg, log) →
    (∀ c ∈ config.connections,
      eval_condition conditions c.conditional = true →
      ∃ s d, loader2.get_block c.from_ = some s ∧
        loader2.get_block c.to_ = some d ∧
        (⟨s, c.from_port.getD "output", d, c.to_port.getD "input"⟩ :
          StreamEdge) ∈ fg.stream_edges) ∧
    (∀ c ∈ config.message_connections,
      eval_condition conditions c.conditional = true →
      ∃ s d, loader2.get_block c.from_ = some s ∧
        loader2.get_block c.to_ = some d ∧
        (⟨s, c.from_port, d, c.to_port.getD c.from_port⟩ :
          MessageEdge) ∈ fg.message_edges) := by
  intro config conditions loader2 fg log h
  obtain ⟨m, fg1, fg2, hcb, hcs, hcm, hl2⟩ := build_ok_elim h
  obtain ⟨hb2, hn2, hm2, added, hedges, hlen, hmem⟩ :=
    connect_streams_spec conditions m _ fg1 fg2 hcs
  obtain ⟨hb3, hn3, hs3, added2, hedges2, hlen2, hmem2⟩ :=
    connect_messages_spec conditions m _ fg2 fg hcm
  have hget : ∀ k, loader2.get_block k = m.lookup k := by
    intro k
    rw [hl2]
    rfl
  constructor
  · intro c hc hev
    obtain ⟨s2, d2, hf, ht, hin⟩ := hmem c hc hev
    refine ⟨s2, d2, (hget _).trans hf, (hget _).trans ht, ?_⟩
    rw [hs3, hedges]
    exact List.mem_append_right _ hin
  · intro c hc hev
    obtain ⟨s2, d2, hf, ht, hin⟩ := hmem2 c hc hev
    refine ⟨s2, d2, (hget _).trans hf, (hget _).trans ht, ?_⟩
    rw [hedges2]
    exact List.mem_append_right _ hin

/-- C7 witness: the defaults at a concrete configuration whose connection
entries omit the ports. -/
theorem c7_connection_port_defaults_witness :
    (∃ s d, c7Loader.get_block "a" = some s ∧ c7Loader.get_block "b" = some d ∧
      (⟨s, "output", d, "input"⟩ : StreamEdge) ∈ c7Fg.stream_edges) ∧
    (∃ s d, c7Loader.get_block "a" = some s ∧ c7Loader.get_block "b" = some d ∧
      (⟨s, "foo", d, "foo"⟩ : MessageEdge) ∈ c7Fg.message_edges) :=
  ⟨(c7_connection_port_defaults c7Config [] c7Loader c7Fg c7Log rfl).1
      { from_ := "a", to_ := "b" } (by decide) rfl,
   (c7_connection_port_defaults c7Config [] c7Loader c7Fg c7Log rfl).2
      { from_ := "a", from_port := "foo", to_ := "b" } (by decide) rfl⟩

/-- C8: guard evaluation semantics and skip behavior of the build. An absent
guard evaluates true; a guard `name` evaluates to the condition-map entry for
`name`, false when absent; a guard `!name` evaluates to its negation, true
when absent. The guard of a block entry is its own name when the entry is
optional and absent otherwise, and a block is skipped exactly when its guard
evaluates false. On a successful build the instantiated blocks are exactly
the guard-true entries in order, and the edge counts equal the counts of
condition-true connection and message-connection entries. -/
theorem c8_guard_evaluation_and_skipping :
    (∀ conditions : CondMap, eval_condition conditions none = true) ∧
    (∀ (conditions : CondMap) (e : String), stripBang e = none →
      eval_condition conditions (some e) =
        ((conditions.lookup e).getD false)) ∧
    (∀ (conditions : CondMap) (n : String),
      eval_condition conditions (some (String.mk ('!' :: n.data))) =
        !((conditions.lookup n).getD false)) ∧
    (∀ (conditions : CondMap) (b : BlockConfig),
      blockSkipped conditions b =
        !(eval_condition conditions (blockGuard b))) ∧
    (∀ (config : FlowgraphConfig) (conditions : CondMap)
      (loader2 : FlowgraphLoader) (fg : Flowgraph) (log : List CreateEvent),
      FlowgraphLoader.build { config := config, conditions := conditions } {} =
        .ok (loader2, fg, log) →
      log.map (fun e => (e.name, e.block_type)) =
        (config.blocks.filter (fun b => !blockSkipped conditions b)).map
          (fun b => (b.name, b.block_type)) ∧
      fg.stream_edges.length =
        (config.connections.filter
          (fun c => eval_condition conditions c.conditional)).length ∧
      fg.message_edges.length =
        (config.message_connections.filter
          (fun c => eval_condition conditions c.conditional)).length) := by
  refine ⟨fun _ => rfl, ?_, ?_, ?_, ?_⟩
  · intro conditions e he
    simp [eval_condition, he]
  · intro conditions n
    rfl
  · intro conditions b
    cases hopt : b.optional <;>
      simp [blockSkipped, blockGuard, eval_condition, hopt]
  · intro config conditions loader2 fg log h
    obtain ⟨m, fg1, fg2, hcb, hcs, hcm, hl2⟩ := build_ok_elim h
    obtain ⟨new, hlog, hnames, hids, hmap, hnext, hblocks, hs1, hm1⟩ :=
      create_blocks_spec conditions _ _ _ _ _ _ _ hcb
    have hlognew : log = new := by simpa using hlog
    subst hlognew
    obtain ⟨hb2, hn2, hm2, added, hedges, hlen, hmem⟩ :=
      connect_streams_spec conditions m _ fg1 fg2 hcs
    obtain ⟨hb3, hn3, hs3, added2, hedges2, hlen2, hmem2⟩ :=
      connect_messages_spec conditions m _ fg2 fg hcm
    refine ⟨hnames, ?_, ?_⟩
    · rw [hs3, hedges, hs1]
      simpa using hlen
    · rw [hedges2, hm2, hm1]
      simpa using hlen2

/-- C8 witness: guard evaluation and skipping at concrete inputs — a present
condition, a negated absent condition, and a build in which the optional
block is skipped, the `!x` connection is kept and the `x` connection is
dropped. -/
theorem c8_guard_evaluation_and_skipping_witness :
    (eval_condition [("a", true)] (some "a") =
      ((([("a", true)] : CondMap).lookup "a").getD false)) ∧
    (eval_condition [("a", true)] (some "!a") =
      !((([("a", true)] : CondMap).lookup "a").getD false)) ∧
    (c8Log.map (fun e => (e.name, e.block_type)) =
      (c8Config.blocks.filter (fun b => !blockSkipped [] b)).map
        (fun b => (b.name, b.block_type)) ∧
    c8Fg.stream_edges.length =
      (c8Config.connections.filter
        (fun c => eval_condition [] c.conditional)).length ∧
    c8Fg.message_edges.length =
      (c8Config.message_connections.filter
        (fun c => eval_condition [] c.conditional)).length) :=
  ⟨c8_guard_evaluation_and_skipping.2.1 [("a", true)] "a" rfl,
   c8_guard_evaluation_and_skipping.2.2.1 [("a", true)] "a",
   c8_guard_evaluation_and_skipping.2.2.2.2 c8Config [] c8Loader c8Fg c8Log rfl⟩

/-- C1 counterexample: building a configuration that lists a `NullSource`
before the `FlowgraphController` assigns the controller BlockId 1, not 0.
The controller factory takes the ordinary `add_block` path, so the claim that
a `FlowgraphController` is assigned BlockId 0 regardless of its position in
the blocks list is false. -/
theorem c1_counterexample :
    (FlowgraphLoader.build { config := c1Config } {}).map
      (fun r => r.1.get_block "ctrl") = .ok (some 1) := rfl

/-- C1 (amended): BlockIds follow instantiation order, so a block — in
particular a `FlowgraphController` — is assigned BlockId 0 exactly when it is
the first block instantiated from the configuration; a controller listed
after any other instantiated block receives a nonzero id. -/
theorem c1_controller_id_zero_iff_first :
    ∀ (config : FlowgraphConfig) (conditions : CondMap)
      (loader2 : FlowgraphLoader) (fg : Flowgraph) (log : List CreateEvent),
    FlowgraphLoader.build { config := config, conditions := conditions } {} =
      .ok (loader2, fg, log) →
    ∀ e ∈ log, e.block_type = "FlowgraphController" →
      (e.id = 0 ↔ log.head? = some e) := by
  intro config conditions loader2 fg log h e he _
  obtain ⟨m, fg1, fg2, hcb, hcs, hcm, hl2⟩ := build_ok_elim h
  obtain ⟨new, hlog, hnames, hids, hmap, hnext, hblocks, hs1, hm1⟩ :=
    create_blocks_spec conditions _ _ _ _ _ _ _ hcb
  have hlognew : log = new := by simpa using hlog
  subst hlognew
  cases log with
  | nil => exact absurd he (by simp)
  | cons e0 t =>
    simp only [List.map_cons, List.length_cons] at hids
    rw [List.range'_succ] at hids
    simp only [List.cons.injEq] at hids
    obtain ⟨h0, ht⟩ := hids
    rcases List.mem_cons.mp he with rfl | het
    · simp [h0]
    · have hmem : e.id ∈ t.map (fun x => x.id) :=
        List.mem_map_of_mem _ het
      rw [ht] at hmem
      have h1 : 1 ≤ e.id := by
        have := (List.mem_range'_1.mp hmem).1
        simpa using this
      constructor
      · intro hz
        exact absurd hz (by omega)
      · intro hh
        simp only [List.head?_cons, Option.some.injEq] at hh
        rw [← hh]
        simpa using h0

/-- C1 witness for the amended claim: a configuration whose controller is the
only (hence first) block gives it BlockId 0, which is also the head of the
creation log. -/
theorem c1_controller_id_zero_iff_first_witness :
    (⟨"ctrl", "FlowgraphController", 0⟩ : CreateEvent).id = 0 ↔
      c1FirstLog.head? = some ⟨"ctrl", "FlowgraphController", 0⟩ :=
  c1_controller_id_zero_iff_first c1FirstConfig [] c1FirstLoader c1FirstFg
    c1FirstLog rfl ⟨"ctrl", "FlowgraphController", 0⟩ (by decide) rfl

/-- C6 counterexample: a configuration whose only block has an unregistered
type but is marked optional builds successfully under the empty condition map
that `load_flowgraph` uses — the guard-skipped entry never reaches the
factory lookup, so no error is reported and a flowgraph is returned. -/
theorem c6_counterexample :
    load_flowgraph c6Config = .ok {} ∧
    FlowgraphLoader.build { config := c6Config } {} =
      .ok ({ config := c6Config }, {}, []) :=
  ⟨rfl, rfl⟩

/-- C6 (amended): if a configuration names a block type with no registered
factory in an entry that is not guard-skipped, or a condition-true connection
or message connection references a from/to block name that no instantiated
block carries, then `FlowgraphLoader::build` — and, under the empty condition
map, `load_flowgraph` — returns an error. -/
theorem c6_unknown_type_or_name_is_error :
    (∀ (config : FlowgraphConfig) (conditions : CondMap) (fg : Flowgraph),
      ((∃ b ∈ config.blocks, blockSkipped conditions b = false ∧
          registeredTypes.contains b.block_type = false) ∨
       (∃ c ∈ config.connections,
          eval_condition conditions c.conditional = true ∧
          (c.from_ ∉ instantiatedNames config conditions ∨
           c.to_ ∉ instantiatedNames config conditions)) ∨
       (∃ c ∈ config.message_connections,
          eval_condition conditions c.conditional = true ∧
          (c.from_ ∉ instantiatedNames config conditions ∨
           c.to_ ∉ instantiatedNames config conditions))) →
      ∃ e, FlowgraphLoader.build { config := config, conditions := conditions }
        fg = .error e) ∧
    (∀ config : FlowgraphConfig,
      ((∃ b ∈ config.blocks, blockSkipped [] b = false ∧
          registeredTypes.contains b.block_type = false) ∨
       (∃ c ∈ config.connections,
          eval_condition [] c.conditional = true ∧
          (c.from_ ∉ instantiatedNames config [] ∨
           c.to_ ∉ instantiatedNames config [])) ∨
       (∃ c ∈ config.message_connections,
          eval_condition [] c.conditional = true ∧
          (c.from_ ∉ instantiatedNames config [] ∨
           c.to_ ∉ instantiatedNames config []))) →
      ∃ e, load_flowgraph config = .error e) := by
  have main : ∀ (config : FlowgraphConfig) (conditions : CondMap)
      (fg : Flowgraph),
      ((∃ b ∈ config.blocks, blockSkipped conditions b = false ∧
          registeredTypes.contains b.block_type = false) ∨
       (∃ c ∈ config.connections,
          eval_condition conditions c.conditional = true ∧
          (c.from_ ∉ instantiatedNames config conditions ∨
           c.to_ ∉ instantiatedNames config conditions)) ∨
       (∃ c ∈ config.message_connections,
          eval_condition conditions c.conditional = true ∧
          (c.from_ ∉ instantiatedNames config conditions ∨
           c.to_ ∉ instantiatedNames config conditions))) →
      ∃ e, FlowgraphLoader.build { config := config, conditions := conditions }
        fg = .error e := by
    intro config conditions fg hyp
    cases hcb : create_blocks conditions config.blocks [] fg [] with
    | error e => exact ⟨e, build_err_create hcb⟩
    | ok r =>
      obtain ⟨m, fg1, log⟩ := r
      have hkeys : ∀ k, k ∉ instantiatedNames config conditions →
          m.lookup k = none := by
        intro k hk
        obtain ⟨new, hlog, hnames, hids, hmap, hnext, hblocks, hs1, hm1⟩ :=
          create_blocks_spec conditions _ _ _ _ _ _ _ hcb
        have hnn : new.map (fun e => e.name) =
            instantiatedNames config conditions := by
          have hfst := congrArg (List.map Prod.fst) hnames
          simpa [List.map_map, instantiatedNames, Function.comp]
            using hfst
        rw [lookup_eq_none_iff]
        intro hmem
        apply hk
        rw [← hnn]
        have : m.map (fun p => p.1) =
            new.reverse.map (fun e => e.name) := by
          simp [hmap, List.map_map, Function.comp]
        rw [this] at hmem
        rw [List.map_reverse, List.mem_reverse] at hmem
        exact hmem
      rcases hyp with ⟨b, hb, hns, hreg⟩ | ⟨c, hc, hev, hlk⟩ | ⟨c, hc, hev, hlk⟩
      · obtain ⟨e, he⟩ :=
          create_blocks_err conditions config.blocks [] fg [] b hb hns hreg
        rw [he] at hcb
        exact absurd hcb (by simp)
      · have hlknone : m.lookup c.from_ = none ∨ m.lookup c.to_ = none := by
          rcases hlk with hl | hl
          · exact Or.inl (hkeys _ hl)
          · exact Or.inr (hkeys _ hl)
        obtain ⟨e, he⟩ :=
          connect_streams_err conditions m config.connections fg1 c hc hev
            hlknone
        exact ⟨e, build_err_streams hcb he⟩
      · have hlknone : m.lookup c.from_ = none ∨ m.lookup c.to_ = none := by
          rcases hlk with hl | hl
          · exact Or.inl (hkeys _ hl)
          · exact Or.inr (hkeys _ hl)
        cases hcs : connect_streams conditions m config.connections fg1 with
        | error e => exact ⟨e, build_err_streams hcb hcs⟩
        | ok fg2 =>
          obtain ⟨e, he⟩ :=
            connect_messages_err conditions m config.message_connections fg2 c
              hc hev hlknone
          exact ⟨e, build_err_messages hcb hcs he⟩
  refine ⟨main, ?_⟩
  intro config hyp
  obtain ⟨e, he⟩ := main config [] {} hyp
  refine ⟨e, ?_⟩
  unfold load_flowgraph
  rw [he]

/-- C6 witness for the amended claim: a non-optional block of an unregistered
type makes both the build and `load_flowgraph` fail. -/
theorem c6_unknown_type_or_name_is_error_witness :
    (∃ e, FlowgraphLoader.build { config := c6BadConfig } {} = .error e) ∧
    (∃ e, load_flowgraph c6BadConfig = .error e) :=
  ⟨c6_unknown_type_or_name_is_error.1 c6BadConfig [] {}
      (Or.inl ⟨{ name := "y", block_type := "NoSuchType" }, by decide,
        by decide, by decide⟩),
   c6_unknown_type_or_name_is_error.2 c6BadConfig
      (Or.inl ⟨{ name := "y", block_type := "NoSuchType" }, by decide,
        by decide, by decide⟩)⟩

/-- C10: a successful build rejects nothing about duplicate names — every
non-skipped entry is instantiated (one creation event per entry, in order)
and added to the flowgraph, while the name-to-id map resolves each name to
the most recently created block with that name; `get_block` and hence every
connection-endpoint resolution yields that last block. -/
theorem c10_duplicate_names_last_wins :
    ∀ (config : FlowgraphConfig) (conditions : CondMap)
      (loader2 : FlowgraphLoader) (fg : Flowgraph) (log : List CreateEvent),
    FlowgraphLoader.build { config := config, conditions := conditions } {} =
      .ok (loader2, fg, log) →
    (∀ name, loader2.get_block name =
      (log.reverse.find? (fun e => e.name == name)).map (fun e => e.id)) ∧
    log.map (fun e => e.name) =
      (config.blocks.filter (fun b => !blockSkipped conditions b)).map
        (fun b => b.name) ∧
    (∀ e ∈ log, ∃ bi, bi ∈ fg.blocks ∧ bi.id = e.id) := by
  intro config conditions loader2 fg log h
  obtain ⟨m, fg1, fg2, hcb, hcs, hcm, hl2⟩ := build_ok_elim h
  obtain ⟨new, hlog, hnames, hids, hmap, hnext, hblocks, hs1, hm1⟩ :=
    create_blocks_spec conditions _ _ _ _ _ _ _ hcb
  have hlognew : log = new := by simpa using hlog
  subst hlognew
  obtain ⟨hb2, hn2, hm2, added, hedges, hlen, hmem⟩ :=
    connect_streams_spec conditions m _ fg1 fg2 hcs
  obtain ⟨hb3, hn3, hs3, added2, hedges2, hlen2, hmem2⟩ :=
    connect_messages_spec conditions m _ fg2 fg hcm
  refine ⟨?_, ?_, ?_⟩
  · intro name
    have hget : loader2.get_block name = m.lookup name := by
      rw [hl2]
      rfl
    rw [hget]
    have hmr : m = log.reverse.map (fun e => (e.name, e.id)) := by
      simpa using hmap
    rw [hmr]
    exact lookup_map_pair log.reverse name
  · have hfst := congrArg (List.map Prod.fst) hnames
    simpa [List.map_map, Function.comp] using hfst
  · intro e he
    have hmem2 : e.id ∈ log.map (fun x => x.id) := List.mem_map_of_mem _ he
    have hfb : fg.blocks.map (fun b => b.id) = log.map (fun x => x.id) := by
      rw [hb3, hb2]
      simpa using hblocks
    rw [← hfb] at hmem2
    obtain ⟨bi, hbi, hbid⟩ := List.mem_map.mp hmem2
    exact ⟨bi, hbi, hbid⟩

/-- C10 witness: the duplicate-name configuration builds, instantiates both
entries, and resolves the shared name to the second (most recent) block. -/
theorem c10_duplicate_names_last_wins_witness :
    c10Loader.get_block "x" = some 1 ∧
    c10Log.map (fun e => e.name) = ["x", "x"] ∧
    (∃ bi, bi ∈ c10Fg.blocks ∧ bi.id = 1) := by
  have h := c10_duplicate_names_last_wins c10Config [] c10Loader c10Fg
    c10Log rfl
  exact ⟨(h.1 "x").trans (by decide), (h.2.1).trans (by decide),
    h.2.2 ⟨"x", "NullSink", 1⟩ (by decide)⟩
